import Mathlib

/-!
Verification development for the haystac repository (CLI front end and
configuration layer for a metagenomic identification pipeline).

The Lean definitions below are a shallow embedding of the Python sources:
* `src/scripts/entrez_utils.py` — retry constants, `chunker`, `entrez_efetch`
  and `guts_of_entrez`;
* `src/haystack/haystack.py` — `check_config_arguments`, the interactive email
  prompt loop of `interactive_config_input`, the layered configuration merge of
  `Rip.database`, and the conflicting-flag checks of `Rip.database`.

Side effects are made explicit: the stream of interactive answers is a function
`Nat → String`, the filesystem is a record of predicates, network attempts are
an oracle `Nat → FetchOutcome` giving the outcome of each attempt, and calls,
sleeps and raised `RuntimeError`s are reflected in return values
(`FetchTrace`, `Except String _`).
-/

namespace Haystac

/-! ### Constants of `src/scripts/entrez_utils.py` (lines 13-27) -/

/-- Line 14: the maximum number of attempts to make for a failed query. -/
def MAX_RETRY_ATTEMPTS : Nat := 2

/-- Line 17: time to wait in seconds before repeating a failed query. -/
def RETRY_WAIT_TIME : Nat := 2

/-- Line 19. -/
def ENTREZ_DB_NUCCORE : String := "nuccore"

/-- Line 20. -/
def ENTREZ_DB_TAXA : String := "taxonomy"

/-- Line 22. -/
def ENTREZ_RETMODE_XML : String := "xml"

/-- Line 23. -/
def ENTREZ_RETMODE_TEXT : String := "text"

/-- Line 25. -/
def ENTREZ_RETTYPE_FASTA : String := "fasta"

/-- Line 27. -/
def ENTREZ_RETMAX : Nat := 10 ^ 9

/-- Python `range(0, stop, step)` for a positive step: the ascending list
`[0, step, 2*step, ...]` of all multiples of `step` below `stop`.  Python
raises `ValueError` for `step = 0`: that error path is modelled explicitly at
the call site that can reach it (`guts_of_entrez` guards its batch size before
this list is consulted), while the `chunker` properties assume a positive
size; the `[]` this function returns at `step = 0` is never relied on. -/
def pyRange0 (stop step : Nat) : List Nat :=
  List.range' 0 ((stop + step - 1) / step) step

/-- Lines 30-31 of `entrez_utils.py`:
`chunker(seq, size) = (seq[pos:pos + size] for pos in range(0, len(seq), size))`.
The Python slice `seq[pos:pos+size]` is `(seq.drop pos).take size`; the lazy
generator is modelled as the list of its elements. -/
def chunker {α : Type} (seq : List α) (size : Nat) : List (List α) :=
  (pyRange0 seq.length size).map (fun pos => (seq.drop pos).take size)

/-! ### `entrez_efetch` (lines 34-61 of `entrez_utils.py`) -/

/-- Outcome of one attempt of the underlying `Entrez.efetch` call: either a
handle (abstracted as a `Nat` identifier), or one of the exception classes
named in the handlers at lines 44 and 57.  The `msg` fields carry the
exception text.  `httpException` stands for an `http.client.HTTPException`
that is not an `IncompleteRead`; `incompleteRead` is kept as its own
constructor because line 57 names it, but since `http.client.IncompleteRead`
is a subclass of `http.client.HTTPException` it is caught by the first
handler (line 44) and retried — the `IncompleteRead` half of the line-57
handler is unreachable, and only `urllib.error.URLError` reaches it. -/
inductive FetchOutcome where
  | success (handle : Nat)
  | httpException (msg : String)
  | incompleteRead (msg : String)
  | urlError (msg : String)
deriving DecidableEq

/-- The keyword arguments passed to `Entrez.efetch` at lines 36-42. -/
structure EfetchRequest where
  db : String
  retmode : String
  rettype : String
  retmax : Nat
  retstart : Nat
  webenv : String
  query_key : String
deriving DecidableEq

/-- Lines 36-42: the request issued by `entrez_efetch`.  Note the source always
passes the constants `ENTREZ_RETMODE_XML` and `ENTREZ_RETTYPE_FASTA`, ignoring
its own `retmode` parameter. -/
def mkEfetchRequest (db : String) (retstart : Nat) (webenv query_key : String) :
    EfetchRequest :=
  { db := db
    retmode := ENTREZ_RETMODE_XML
    rettype := ENTREZ_RETTYPE_FASTA
    retmax := ENTREZ_RETMAX
    retstart := retstart
    webenv := webenv
    query_key := query_key }

/-- Observable behaviour of one `entrez_efetch` call: the returned value
(`some handle`, or `none` for Python `None`), the list of requests issued (in
order), and the list of `time.sleep` durations performed (in order). -/
structure FetchTrace where
  result : Option Nat
  requests : List EfetchRequest
  sleeps : List Nat
deriving DecidableEq

/-- Recursive core of `entrez_efetch` (lines 34-61).  `oracle n` is the outcome
of the `n`-th attempt.  An `IncompleteRead` takes the same branch as any other
`HTTPException`: being a subclass, it is caught by the first handler at
line 44 and retried, so the line-57 handler handles `URLError` only.  `fuel`
is a bound on the remaining recursion depth, instantiated as
`MAX_RETRY_ATTEMPTS + 1 - attempt` by `entrez_efetch`; the recursion guard
`attempt + 1 > MAX_RETRY_ATTEMPTS` already stops every chain, so the
`fuel = 0` branch (which mirrors the give-up result of line 51) is never
reached from `entrez_efetch`. -/
def efetchAux (oracle : Nat → FetchOutcome) (db : String) (retstart : Nat)
    (webenv query_key : String) : Nat → Nat → FetchTrace
  | attempt, fuel =>
    let req := mkEfetchRequest db retstart webenv query_key
    match oracle attempt with
    | FetchOutcome.success h =>
        { result := some h, requests := [req], sleeps := [] }
    | FetchOutcome.httpException _ | FetchOutcome.incompleteRead _ =>
        -- lines 44-55: `except http.client.HTTPException` (which also catches
        -- `IncompleteRead`): `attempt += 1; if attempt > MAX_RETRY_ATTEMPTS: return None`
        if MAX_RETRY_ATTEMPTS < attempt + 1 then
          { result := Option.none, requests := [req], sleeps := [] }
        else
          match fuel with
          | 0 => { result := Option.none, requests := [req], sleeps := [] }
          | fuel' + 1 =>
            -- line 53: `time.sleep(RETRY_WAIT_TIME)`, then line 55 recursion
            let rest := efetchAux oracle db retstart webenv query_key (attempt + 1) fuel'
            { result := rest.result
              requests := req :: rest.requests
              sleeps := RETRY_WAIT_TIME :: rest.sleeps }
    | FetchOutcome.urlError _ =>
        -- lines 57-61 (reachable for `URLError` only): ditch the batch, return None
        { result := Option.none, requests := [req], sleeps := [] }

/-- Lines 34-61: `entrez_efetch(db, retmode, retstart, webenv, query_key,
attempt=1)`.  The `retmode` parameter is accepted but unused by the request, as
in the source.  The default `attempt := 1` mirrors the Python default. -/
def entrez_efetch (oracle : Nat → FetchOutcome) (db retmode : String)
    (retstart : Nat) (webenv query_key : String) (attempt : Nat := 1) : FetchTrace :=
  efetchAux oracle db retstart webenv query_key attempt
    (MAX_RETRY_ATTEMPTS + 1 - attempt)

/-! ### `guts_of_entrez` (lines 64-99 of `entrez_utils.py`) -/

/-- Loop body of `guts_of_entrez` over the batch start offsets (lines 73-99).
`fetch start` is the handle returned by `entrez_efetch` for that offset
(`none` for Python `None`, skipped by `if not handle: continue` at line 80);
`parse h` is `Entrez.read(h)`, with `none` standing for any of the exceptions
caught at lines 92-93 (also a skip).  The first component collects the records
yielded by the generator; the second is the handle returned early in text mode
(line 84), which ends the generator. -/
def gutsAux {R : Type} (retmode : String) (fetch : Nat → Option Nat)
    (parse : Nat → Option (List R)) : List Nat → List R × Option Nat
  | [] => ([], Option.none)
  | start :: rest =>
    match fetch start with
    | Option.none => gutsAux retmode fetch parse rest
    | some handle =>
      if retmode = ENTREZ_RETMODE_TEXT then ([], some handle)
      else
        match parse handle with
        | Option.none => gutsAux retmode fetch parse rest
        | some records =>
          let t := gutsAux retmode fetch parse rest
          (records ++ t.1, t.2)

/-- Lines 64-99: `guts_of_entrez(db, retmode, chunk, batch_size)`.  The
`Entrez.epost`/`Entrez.read` session of lines 70-71 is abstracted by the
`webenv`/`query_key` parameters; `oracle start` gives the per-attempt outcomes
of the `entrez_efetch` call for the batch at offset `start` (line 78, called
with the Python default `attempt = 1`); `parse` abstracts `Entrez.read` on a
fetched handle (line 89).  At `batch_size = 0` the `range(0, len(chunk),
batch_size)` of line 73 raises `ValueError` (the message is CPython's),
modelled as `Except.error`; otherwise the loop runs and its outcome is
returned in `Except.ok`. -/
def guts_of_entrez {R : Type} (oracle : Nat → Nat → FetchOutcome)
    (parse : Nat → Option (List R)) (db retmode : String) (chunk : List String)
    (batch_size : Nat) (webenv query_key : String) :
    Except String (List R × Option Nat) :=
  if batch_size = 0 then
    Except.error "ValueError: range() arg 3 must not be zero"
  else
    Except.ok (gutsAux retmode
      (fun start => (entrez_efetch (oracle start) db retmode start webenv query_key).result)
      parse
      (pyRange0 chunk.length batch_size))

/-- Records contributed by a single batch: none when the fetch returned `None`
or the parse raised, otherwise the parsed records. -/
def batchYield {R : Type} (fetched : Option Nat) (parse : Nat → Option (List R)) :
    List R :=
  match fetched with
  | Option.none => []
  | some h =>
    match parse h with
    | Option.none => []
    | some records => records

/-! ### Python values and truthiness, for `src/haystack/haystack.py` -/

/-- The Python values flowing through the configuration dictionaries: `None`,
booleans, ints, floats (modelled as rationals — only truthiness and order
comparisons are performed on them) and strings. -/
inductive PyVal where
  | none
  | bool (b : Bool)
  | int (n : Int)
  | float (q : Rat)
  | str (s : String)
deriving DecidableEq

/-- Python truthiness: `None`, `False`, `0`, `0.0` and `""` are falsy. -/
def pyTruthy : PyVal → Bool
  | PyVal.none => false
  | PyVal.bool b => b
  | PyVal.int n => decide (n ≠ 0)
  | PyVal.float q => decide (q ≠ 0)
  | PyVal.str s => decide (s ≠ "")

/-- Python `isinstance(v, int)`; note `bool` is a subclass of `int`. -/
def pyIsInstanceInt : PyVal → Bool
  | PyVal.int _ => true
  | PyVal.bool _ => true
  | _ => false

/-- Python `v > 0` on the numeric values.  (On `None`/`str`, Python 3 would
raise `TypeError`; the call sites below only reach this comparison with numeric
values.) -/
def pyGtZero : PyVal → Bool
  | PyVal.int n => decide (0 < n)
  | PyVal.bool b => b
  | PyVal.float q => decide (0 < q)
  | _ => false

/-- Python `v == s` against a string literal: values of other types never equal
a `str`. -/
def pyValEqStr : PyVal → String → Bool
  | PyVal.str t, s => decide (t = s)
  | _, _ => false

/-- Truthiness of the two-element tuple `(value, float)` built by the typo at
lines 158 and 178 of `haystack.py`: a non-empty tuple is always truthy, so the
`if not (value, float):` type checks there can never fire. -/
def pyTupleTruthy : Bool := true

/-- Line 46 and line 129 of `haystack.py`:
`re.match(r"[^@]+@[^@]+\.[^@]+", s)` is not `None`, i.e. `s` has a prefix of
shape "one or more non-@, `@`, one or more non-@, `.`, one or more non-@".
Positions `i` (the `@`) and `j` (the `.`) are searched exhaustively. -/
def emailMatches (s : String) : Bool :=
  let cs := s.data
  (List.range cs.length).any fun i =>
    (List.range cs.length).any fun j =>
      decide (0 < i) && decide (i + 1 < j) && decide (j + 1 < cs.length) &&
      (cs.getD i ' ' == '@') && (cs.getD j ' ' == '.') &&
      ((cs.take i).all fun c => c != '@') &&
      (((cs.drop (i + 1)).take (j - (i + 1))).all fun c => c != '@') &&
      (cs.getD (j + 1) ' ' != '@')

/-- Filesystem facts consulted by the configuration checks: `os.path.exists`,
`os.access(-, os.W_OK)` and `os.path.dirname`. -/
structure Filesystem where
  pathExists : String → Bool
  writable : String → Bool
  dirname : String → String

/-- The keys of the configuration dictionary passed to
`check_config_arguments` (lines 109-117 and the `config` subcommand flags). -/
structure ConfigArgs where
  email : PyVal
  genome_cache_folder : PyVal
  batchsize : PyVal
  mismatch_probability : PyVal
  bowtie2_threads : PyVal
  bowtie2_scaling : PyVal
  use_conda : PyVal
deriving DecidableEq

/-! ### `check_config_arguments` (lines 124-189 of `haystack.py`),
split into its successive field blocks -/

/-- Lines 128-135: if the email is truthy and fails the regex, print a warning
and replace it with the next interactive input — the replacement is not
re-validated and nothing is raised.  (`re.match` on a truthy non-`str` value
would raise `TypeError`; both call sites pass `str` or `None` here.) -/
def checkEmailField (inputs : Nat → String) (email : PyVal) : PyVal :=
  if pyTruthy email then
    match email with
    | PyVal.str s =>
      if !(emailMatches s) then PyVal.str (inputs 0) else email
    | _ => email
  else email

/-- Lines 137-149: the genome-cache folder (or its parent, when it does not
exist yet) must be writable. -/
def checkGenomeCacheField (fs : Filesystem) (v : PyVal) : Except String Unit :=
  if pyTruthy v then
    match v with
    | PyVal.str s =>
      if fs.pathExists s then
        if !(fs.writable s) then
          Except.error
            "This directory path you have provided is not writable. Please chose another path for your genomes directory."
        else Except.ok ()
      else
        if !(fs.writable (fs.dirname s)) then
          Except.error
            "This directory path you have provided is not writable. Please chose another path for your genomes directory."
        else Except.ok ()
    | _ => Except.ok ()
  else Except.ok ()

/-- Lines 151-155: the batchsize must be a positive `int` — but only when it is
truthy, so `0` is never checked. -/
def checkBatchsizeField (v : PyVal) : Except String Unit :=
  if pyTruthy v then
    if !(pyIsInstanceInt v) then
      Except.error "Please provide a positive integer for batchsize."
    else if !(pyGtZero v) then
      Except.error "Please provide a positive integer for batchsize."
    else Except.ok ()
  else Except.ok ()

/-- Lines 157-165: the mismatch probability must be positive — only when
truthy, so `0.0` is never checked.  The intended type check at line 158 tests
the tuple `(value, float)`, which is always truthy, so it never fires. -/
def checkMismatchProbabilityField (v : PyVal) : Except String Unit :=
  if pyTruthy v then
    if !pyTupleTruthy then
      Except.error "Please provide a positive float for mismatch probability."
    else if !(pyGtZero v) then
      Except.error "Please provide a positive float for mismatch probability."
    else Except.ok ()
  else Except.ok ()

/-- Lines 167-175: the bowtie2 thread count must be a positive `int` — only
when truthy, so `0` is never checked. -/
def checkBowtie2ThreadsField (v : PyVal) : Except String Unit :=
  if pyTruthy v then
    if !(pyIsInstanceInt v) then
      Except.error "Please provide a positive integer for the bowtie2 threads."
    else if !(pyGtZero v) then
      Except.error "Please provide a positive integer for the bowtie2 threads."
    else Except.ok ()
  else Except.ok ()

/-- Lines 177-185: the bowtie2 scaling factor must be positive — only when
truthy, so `0.0` is never checked; the tuple typo of line 178 is as at
line 158. -/
def checkBowtie2ScalingField (v : PyVal) : Except String Unit :=
  if pyTruthy v then
    if !pyTupleTruthy then
      Except.error "Please provide a positive float for the bowtie2 scaling factor."
    else if !(pyGtZero v) then
      Except.error "Please provide a positive float for the bowtie2 scaling factor."
    else Except.ok ()
  else Except.ok ()

/-- Lines 187-189: a truthy `use_conda` must equal the string `"True"` or
`"False"` (the Python `in ["True", "False"]` membership test compares with
`==`, which no non-`str` value satisfies). -/
def checkUseCondaField (v : PyVal) : Except String Unit :=
  if pyTruthy v then
    if !(pyValEqStr v "True" || pyValEqStr v "False") then
      Except.error "Please either spcify True or False for using conda."
    else Except.ok ()
  else Except.ok ()

/-- Lines 124-189: `check_config_arguments(args)`.  The blocks run in source
order; a raised `RuntimeError` is an `Except.error`, and the in-place mutation
of `args["email"]` at line 131 is modelled by returning the updated record. -/
def check_config_arguments (fs : Filesystem) (inputs : Nat → String)
    (args : ConfigArgs) : Except String ConfigArgs := do
  let email := checkEmailField inputs args.email
  checkGenomeCacheField fs args.genome_cache_folder
  checkBatchsizeField args.batchsize
  checkMismatchProbabilityField args.mismatch_probability
  checkBowtie2ThreadsField args.bowtie2_threads
  checkBowtie2ScalingField args.bowtie2_scaling
  checkUseCondaField args.use_conda
  pure { args with email := email }

/-! ### The email prompt loop of `interactive_config_input`
(lines 37-59 of `haystack.py`) -/

/-- One round of the `while count < 3` loop: read an input; if it matches the
regex, break with it; otherwise print a warning, read (and store, but never
validate — the next round overwrites it) a second input, increment `count`,
and loop.  `fuel = 3 - count` counts the remaining rounds; at `fuel = 0`
(i.e. `count == 3`) line 57 raises `RuntimeError`. -/
def interactiveEmailRounds (inputs : Nat → String) : Nat → Nat → Except String String
  | _, 0 =>
    Except.error "Please try rip config again to input a valid email address."
  | idx, fuel + 1 =>
    if emailMatches (inputs idx) then Except.ok (inputs idx)
    else interactiveEmailRounds inputs (idx + 2) fuel

/-- Lines 37-59: the email-acquisition portion of `interactive_config_input`,
started with `count = 0` at the head of the input stream. -/
def interactive_config_email (inputs : Nat → String) : Except String String :=
  interactiveEmailRounds inputs 0 3

/-! ### Layered configuration merge and flag conflicts of `Rip.database`
(lines 540-575 of `haystack.py`) -/

/-- Python `d.update(e.items())`, key-wise on dictionaries modelled as partial
maps: a key present in `e` takes `e`'s value, otherwise `d`'s binding is
kept.  (A key bound to Python `None` is still present; `None` is the value
`PyVal.none`, distinct from absence `Option.none`.) -/
def dictUpdate {K V : Type} (d e : K → Option V) : K → Option V :=
  fun k =>
    match e k with
    | some v => some v
    | Option.none => d k

/-- Lines 540-551 of `haystack.py`: the repository config is loaded, updated
key-wise with the user config (`repo_rip_config.update(user_rip_config.items())`,
line 546), copied, and updated key-wise with the parsed per-invocation flags
(`database_config.update(database_args.items())`, line 551). -/
def databaseResolvedConfig (repo user flags : String → Option PyVal) :
    String → Option PyVal :=
  dictUpdate (dictUpdate repo user) flags

/-- Test for a leading `/`, as `startswith("/")` in POSIX `os.path.join`. -/
def strStartsWithSlash (s : String) : Bool :=
  match s.data with
  | [] => false
  | c :: _ => c == '/'

/-- Test for a trailing `/`, as `endswith("/")` in POSIX `os.path.join`. -/
def strEndsWithSlash (s : String) : Bool :=
  match s.data.getLast? with
  | some c => c == '/'
  | Option.none => false

/-- POSIX `os.path.join(a, b)` for the two-component calls used here: an
absolute second component replaces the first; otherwise the components are
joined with exactly one `/` separator. -/
def pyPathJoin (a b : String) : String :=
  if strStartsWithSlash b then b
  else if a = "" then b
  else if strEndsWithSlash a then a ++ b
  else a ++ "/" ++ b

/-- Python `str(v)` on configuration values.  (Line 704 only ever applies it
to the `mtDNA` flag, a `bool` from `argparse`'s `store_true` or the string a
YAML round trip turned it into; Python's `float` repr is not reproduced and no
theorem evaluates this on a float.) -/
def pyStr : PyVal → String
  | PyVal.none => "None"
  | PyVal.bool true => "True"
  | PyVal.bool false => "False"
  | PyVal.int n => toString n
  | PyVal.float q => toString q
  | PyVal.str s => s

/-- Python `s.lower()` for the ASCII strings it is applied to at line 704
(`"True"`/`"False"`, or whatever string the key already held). -/
def pyLower (s : String) : String :=
  String.mk (s.data.map Char.toLower)

/-- Lines 703-704 of `haystack.py`: the two unconditional mutations the
`database` subcommand applies to `database_config` after the merge of
lines 540-551 and immediately before handing it to the workflow engine
(`snakemake.snakemake`, where it is passed as `config=database_config`):
`database_config["workflow_dir"] = os.path.join(thisdir, "workflow")` and
`database_config["mtDNA"] = str(database_config["mtDNA"]).lower()`.  They run
on every path that reaches the engine; the conditional rewritings earlier in
the subcommand (`query` inlined from the query file at lines 577-584,
`db_output` normalised at lines 602-618, the wholesale reload in index mode
at line 670) mutate yet other keys and are not needed to separate the engine
configuration from the plain three-layer merge.  (A `cfg` missing the
`mtDNA` key would raise `KeyError` at line 704; every call path defines it,
`argparse` supplying `False` by default.) -/
def databaseFinalMutations (thisdir : String) (cfg : String → Option PyVal) :
    String → Option PyVal :=
  fun k =>
    if k = "workflow_dir" then some (PyVal.str (pyPathJoin thisdir "workflow"))
    else if k = "mtDNA" then
      match cfg "mtDNA" with
      | some v => some (PyVal.str (pyLower (pyStr v)))
      | Option.none => Option.none
    else cfg k

/-- The `database_config` keys consulted by the checks at lines 553-575. -/
structure DbConfig where
  refseq_rep : PyVal
  query : PyVal
  query_file : PyVal
  accessions : PyVal
  sequences : PyVal
  mtDNA : PyVal
deriving DecidableEq

/-- Lines 553-575 of `haystack.py`: the three `RuntimeError` checks run by the
`database` subcommand on the resolved configuration, in source order, before
any further processing and before the workflow engine (`snakemake.snakemake`)
is invoked.  Python `is False` / `is None` are identity tests, satisfied
exactly by the values `False` and `None`. -/
def databaseChecks (cfg : DbConfig) : Except String Unit :=
  if cfg.refseq_rep = PyVal.bool false ∧ cfg.query = PyVal.none ∧
      cfg.query_file = PyVal.none ∧ cfg.accessions = PyVal.none ∧
      cfg.sequences = PyVal.none then
    Except.error
      "Please specify where RIP should get the database sequences from (query, RefSeq Rep, custom accessions or custom seqeunces"
  else if pyTruthy cfg.mtDNA && pyTruthy cfg.refseq_rep then
    Except.error
      "These flags are mutually exclusive. Either pick refseq-rep for prokaryotic related queries or pick mtDNA for eukaryotic related queries."
  else if pyTruthy cfg.query && pyTruthy cfg.query_file then
    Except.error
      "You cannot provide both a query and a query file. Please chose only one option, and provide the only its respective flag."
  else Except.ok ()

/-! ## Theorems -/

/-- C1: For every call of `entrez_efetch` in which every attempt raises a
transient network failure (`http.client.HTTPException`), up to and including
the maximum attempt count `MAX_RETRY_ATTEMPTS`, the call returns `None` (an
empty/absent result) and does not propagate any exception (the embedding is a
total function into `FetchTrace`; only the caught exception classes occur). -/
theorem entrez_efetch_all_http_failures_returns_none
    (oracle : Nat → FetchOutcome) (db retmode : String) (retstart : Nat)
    (webenv query_key : String)
    (hfail : ∀ n, 1 ≤ n → n ≤ MAX_RETRY_ATTEMPTS →
      ∃ m, oracle n = FetchOutcome.httpException m) :
    (entrez_efetch oracle db retmode retstart webenv query_key).result =
      Option.none := by
  obtain ⟨m1, h1⟩ := hfail 1 (by decide) (by decide)
  obtain ⟨m2, h2⟩ := hfail 2 (by decide) (by decide)
  simp [entrez_efetch, efetchAux, h1, h2, MAX_RETRY_ATTEMPTS]

/-- Witness for C1: a concrete oracle failing every attempt. -/
theorem entrez_efetch_all_http_failures_returns_none_witness :
    (entrez_efetch (fun _ => FetchOutcome.httpException "boom") "nuccore" "xml"
      0 "web1" "1").result = Option.none :=
  entrez_efetch_all_http_failures_returns_none
    (fun _ => FetchOutcome.httpException "boom") "nuccore" "xml" 0 "web1" "1"
    (fun _ _ _ => ⟨"boom", rfl⟩)

/-- C2: For every call of `entrez_efetch` in which attempts `1..N` raise a
transient network failure (`http.client.HTTPException`) and attempt `N + 1`
succeeds, where `N + 1` is at most `MAX_RETRY_ATTEMPTS`, the call returns the
successful result of attempt `N + 1`. -/
theorem entrez_efetch_retry_then_success
    (oracle : Nat → FetchOutcome) (db retmode : String) (retstart : Nat)
    (webenv query_key : String) (N handle : Nat)
    (hfail : ∀ i, 1 ≤ i → i ≤ N → ∃ m, oracle i = FetchOutcome.httpException m)
    (hsucc : oracle (N + 1) = FetchOutcome.success handle)
    (hle : N + 1 ≤ MAX_RETRY_ATTEMPTS) :
    (entrez_efetch oracle db retmode retstart webenv query_key).result =
      some handle := by
  have hN : N ≤ 1 := by
    have : N + 1 ≤ 2 := by simpa [MAX_RETRY_ATTEMPTS] using hle
    omega
  interval_cases N
  · simp [entrez_efetch, efetchAux, hsucc, MAX_RETRY_ATTEMPTS]
  · obtain ⟨m1, h1⟩ := hfail 1 le_rfl le_rfl
    simp [entrez_efetch, efetchAux, h1, hsucc, MAX_RETRY_ATTEMPTS]

/-- Witness for C2: one failure, then success on attempt 2 (= the maximum). -/
theorem entrez_efetch_retry_then_success_witness :
    (entrez_efetch
      (fun n => if n = 1 then FetchOutcome.httpException "x" else FetchOutcome.success 7)
      "nuccore" "xml" 0 "web1" "1").result = some 7 :=
  entrez_efetch_retry_then_success _ "nuccore" "xml" 0 "web1" "1" 1 7
    (fun i hi1 hi2 => ⟨"x", by
      have : i = 1 := le_antisymm hi2 hi1
      simp [this]⟩)
    (by decide) (by decide)

/-- C5 counterexample: an `http.client.IncompleteRead` is a subclass of
`http.client.HTTPException`, so the first handler (line 44) catches it and
retries.  With an `IncompleteRead` on attempt 1 and a success on attempt 2,
the call issues a second, identical request after a sleep and returns the
fetched handle — not `None`, and not without a further retry attempt — which
refutes the claim for the `IncompleteRead` class. -/
theorem entrez_efetch_incompleteread_is_retried :
    entrez_efetch
      (fun n => if n = 1 then FetchOutcome.incompleteRead "truncated"
                else FetchOutcome.success 7)
      "nuccore" "xml" 0 "web1" "1" =
      { result := some 7
        requests := [mkEfetchRequest "nuccore" 0 "web1" "1",
                     mkEfetchRequest "nuccore" 0 "web1" "1"]
        sleeps := [RETRY_WAIT_TIME] } := by
  decide

/-- C5 (amended): For every call of `entrez_efetch` in which an attempt raises
`urllib.error.URLError`, the call returns `None` for the current batch without
making any further retry attempt (exactly one request, no sleep), regardless
of how many retry attempts remain; an `http.client.IncompleteRead`, being a
subclass of `http.client.HTTPException`, is instead caught by the
transient-failure handler and retried like any other `HTTPException`
(a success on the next attempt within the maximum is returned). -/
theorem entrez_efetch_urlerror_gives_up_incompleteread_retried
    (oracle : Nat → FetchOutcome) (db retmode : String) (retstart : Nat)
    (webenv query_key : String) (attempt : Nat) (m : String) :
    (oracle attempt = FetchOutcome.urlError m →
      entrez_efetch oracle db retmode retstart webenv query_key attempt =
        { result := Option.none
          requests := [mkEfetchRequest db retstart webenv query_key]
          sleeps := [] }) ∧
    (∀ handle, oracle 1 = FetchOutcome.incompleteRead m →
      oracle 2 = FetchOutcome.success handle →
      (entrez_efetch oracle db retmode retstart webenv query_key).result =
        some handle) := by
  constructor
  · intro h
    unfold entrez_efetch
    cases hf : MAX_RETRY_ATTEMPTS + 1 - attempt with
    | zero => simp [efetchAux, h]
    | succ f => simp [efetchAux, h]
  · intro handle h1 h2
    simp [entrez_efetch, efetchAux, h1, h2, MAX_RETRY_ATTEMPTS]

/-- Witness for the amended C5: a `URLError` gives up at once with a single
request even though a retry attempt remains, while an `IncompleteRead`
followed by a success is retried and delivers the handle. -/
theorem entrez_efetch_urlerror_gives_up_incompleteread_retried_witness :
    entrez_efetch (fun _ => FetchOutcome.urlError "bad stream") "nuccore" "xml"
      0 "web1" "1" 1 =
      { result := Option.none
        requests := [mkEfetchRequest "nuccore" 0 "web1" "1"]
        sleeps := [] } ∧
    (entrez_efetch
      (fun n => if n = 1 then FetchOutcome.incompleteRead "trunc"
                else FetchOutcome.success 9)
      "nuccore" "xml" 0 "web1" "1").result = some 9 :=
  ⟨(entrez_efetch_urlerror_gives_up_incompleteread_retried
      (fun _ => FetchOutcome.urlError "bad stream") "nuccore" "xml" 0 "web1"
      "1" 1 "bad stream").1 rfl,
    (entrez_efetch_urlerror_gives_up_incompleteread_retried
      (fun n => if n = 1 then FetchOutcome.incompleteRead "trunc"
                else FetchOutcome.success 9)
      "nuccore" "xml" 0 "web1" "1" 1 "trunc").2 9 rfl rfl⟩

/-- C8: For every sequence of attempt outcomes, `entrez_efetch` (entered at
attempt 1, as at its call site) terminates — it is a total function — and
issues at most `MAX_RETRY_ATTEMPTS` requests in total; it waits the fixed
delay `RETRY_WAIT_TIME` between consecutive attempts (one sleep fewer than
requests, each of exactly `RETRY_WAIT_TIME`), and every retried request
carries parameters (`db`, `retstart`, `webenv`, `query_key`) identical to the
original request: the request list is a replication of the single request
value built from the original arguments. -/
theorem entrez_efetch_bounded_identical_retries
    (oracle : Nat → FetchOutcome) (db retmode : String) (retstart : Nat)
    (webenv query_key : String) :
    (entrez_efetch oracle db retmode retstart webenv query_key).requests.length ≤
        MAX_RETRY_ATTEMPTS ∧
    1 ≤ (entrez_efetch oracle db retmode retstart webenv query_key).requests.length ∧
    (entrez_efetch oracle db retmode retstart webenv query_key).requests =
      List.replicate
        (entrez_efetch oracle db retmode retstart webenv query_key).requests.length
        (mkEfetchRequest db retstart webenv query_key) ∧
    (entrez_efetch oracle db retmode retstart webenv query_key).sleeps =
      List.replicate
        ((entrez_efetch oracle db retmode retstart webenv query_key).requests.length - 1)
        RETRY_WAIT_TIME := by
  rcases h1 : oracle 1 with h | m | m | m <;>
    rcases h2 : oracle 2 with h' | m' | m' | m' <;>
    simp [entrez_efetch, efetchAux, h1, h2, MAX_RETRY_ATTEMPTS, RETRY_WAIT_TIME,
      List.replicate]

/-- Helper for C6: in any non-text retmode, the batch loop of `guts_of_entrez`
visits every start offset in order and contributes `batchYield` per batch,
never returning a handle early. -/
theorem gutsAux_non_text_flatten {R : Type} (retmode : String)
    (hx : retmode ≠ ENTREZ_RETMODE_TEXT) (fetch : Nat → Option Nat)
    (parse : Nat → Option (List R)) :
    ∀ starts : List Nat,
      gutsAux retmode fetch parse starts =
        ((starts.map (fun s => batchYield (fetch s) parse)).flatten, Option.none)
  | [] => by simp [gutsAux]
  | s :: rest => by
    have ih := gutsAux_non_text_flatten retmode hx fetch parse rest
    rcases hf : fetch s with _ | handle
    · simp [gutsAux, hf, ih, batchYield]
    · rcases hp : parse handle with _ | records <;>
        simp [gutsAux, hf, hp, hx, ih, batchYield]

/-- C6 counterexample: at batch size zero the program does not process or
yield anything — line 73's `range(0, len(chunk), 0)` raises `ValueError`
before any batch is fetched — so the claim, which quantifies over every batch
size, fails at `batch_size = 0` even with a perfectly healthy fetcher and
parser. -/
theorem guts_of_entrez_zero_batch_size_raises :
    guts_of_entrez (fun _ _ => FetchOutcome.success 10)
      (fun _ => some [21]) "nuccore" "xml" ["a"] 0 "web1" "1" =
      Except.error "ValueError: range() arg 3 must not be zero" := rfl

/-- C6 (amended): For every input list and every positive batch size,
`guts_of_entrez` with XML retmode processes all batches (the start offsets
`range(0, len(chunk), batch_size)`) in order and yields exactly the records
of the batches whose fetch and parse succeed: a batch whose fetch returns
`None`, or whose returned stream fails to parse, contributes nothing, and the
remaining batches are still processed — the output is the in-order
concatenation of the per-batch record lists, so one failed batch does not
abort the whole fetch (and the generator never ends early: the early-return
component is `none`).  At batch size zero the range construction raises
`ValueError` instead. -/
theorem guts_of_entrez_xml_skips_failed_batches {R : Type}
    (oracle : Nat → Nat → FetchOutcome) (parse : Nat → Option (List R))
    (db retmode : String) (chunk : List String) (batch_size : Nat)
    (webenv query_key : String) (hb : 0 < batch_size)
    (hx : retmode = ENTREZ_RETMODE_XML) :
    guts_of_entrez oracle parse db retmode chunk batch_size webenv query_key =
      Except.ok
        (((pyRange0 chunk.length batch_size).map (fun start =>
            batchYield
              (entrez_efetch (oracle start) db retmode start webenv query_key).result
              parse)).flatten,
          Option.none) := by
  subst hx
  unfold guts_of_entrez
  rw [if_neg (by omega : ¬ batch_size = 0)]
  exact congrArg Except.ok (gutsAux_non_text_flatten _ (by decide) _ _ _)

/-- Witness for the amended C6: five ids in batches of two; the middle batch
exhausts its retries and the last batch fails to parse, yet the records of
the first batch are delivered. -/
theorem guts_of_entrez_xml_skips_failed_batches_witness :
    guts_of_entrez
      (fun start _ =>
        if start = 0 then FetchOutcome.success 10
        else if start = 2 then FetchOutcome.httpException "down"
        else FetchOutcome.success 11)
      (fun h => if h = 10 then some [21, 22] else Option.none)
      "nuccore" "xml" ["a", "b", "c", "d", "e"] 2 "web1" "1" =
      Except.ok ([21, 22], Option.none) := by
  rw [guts_of_entrez_xml_skips_failed_batches
    (fun start _ =>
        if start = 0 then FetchOutcome.success 10
        else if start = 2 then FetchOutcome.httpException "down"
        else FetchOutcome.success 11)
    (fun h => if h = 10 then some [21, 22] else Option.none)
    "nuccore" "xml" ["a", "b", "c", "d", "e"] 2 "web1" "1" (by decide) rfl]
  rfl

/-- Helper for C9: `range(0, 0, step)` is empty. -/
theorem pyRange0_zero (step : Nat) : pyRange0 0 step = [] := by
  unfold pyRange0
  have h : (0 + step - 1) / step = 0 := by
    rcases step with _ | s
    · rfl
    · exact Nat.div_eq_of_lt (by omega)
  rw [h]
  rfl

/-- Helper for C9: `chunker` of the empty sequence is empty. -/
theorem chunker_nil {α : Type} (size : Nat) : chunker ([] : List α) size = [] := by
  unfold chunker
  rw [List.length_nil, pyRange0_zero]
  rfl

/-- Helper for C9: for a positive size and a non-empty sequence, `chunker`
produces the first `size` elements followed by the chunks of the rest. -/
theorem chunker_cons {α : Type} (seq : List α) (size : Nat) (hs : 0 < size)
    (hne : seq ≠ []) :
    chunker seq size = seq.take size :: chunker (seq.drop size) size := by
  have hlen : 0 < seq.length := List.length_pos.mpr hne
  unfold chunker pyRange0
  rw [List.length_drop]
  have hcount : (seq.length + size - 1) / size =
      (seq.length - size + size - 1) / size + 1 := by
    rcases le_or_lt seq.length size with hle | hlt
    · have h1 : (seq.length + size - 1) / size = 1 := by
        apply Nat.div_eq_of_lt_le
        · omega
        · omega
      have h0 : seq.length - size = 0 := by omega
      have h2 : (seq.length - size + size - 1) / size = 0 := by
        rw [h0]
        exact Nat.div_eq_of_lt (by omega)
      omega
    · have h3 : seq.length - size + size - 1 = seq.length - 1 := by omega
      have h4 : seq.length + size - 1 = seq.length - 1 + size := by omega
      rw [h3, h4, Nat.add_div_right _ hs]
  rw [hcount, List.range'_succ, List.map_cons]
  congr 1
  rw [Nat.zero_add]
  have hshift : List.range' size ((seq.length - size + size - 1) / size) size =
      List.map (size + ·) (List.range' 0 ((seq.length - size + size - 1) / size) size) := by
    have h := List.map_add_range' size 0 ((seq.length - size + size - 1) / size) size
    rw [Nat.add_zero] at h
    exact h.symm
  rw [hshift, List.map_map]
  apply List.map_congr_left
  intro pos _
  simp [List.drop_drop, Nat.add_comm]

/-- Helper for C9: the three chunk properties, by strong induction on the
length of the sequence. -/
theorem chunker_spec_aux {α : Type} :
    ∀ (n : Nat) (seq : List α) (size : Nat), seq.length ≤ n → 0 < size →
      (chunker seq size).flatten = seq ∧
      (∀ c ∈ chunker seq size, c ≠ [] ∧ c.length ≤ size) ∧
      (∀ i, i + 1 < (chunker seq size).length →
        ((chunker seq size).getD i []).length = size)
  | 0, seq, size, hn, hs => by
    have hseq : seq = [] := List.length_eq_zero.mp (Nat.le_zero.mp hn)
    subst hseq
    refine ⟨by rw [chunker_nil]; rfl, ?_, ?_⟩
    · intro c hc
      rw [chunker_nil] at hc
      cases hc
    · intro i hi
      rw [chunker_nil] at hi
      simp at hi
  | n + 1, seq, size, hn, hs => by
    rcases eq_or_ne seq [] with hseq | hne
    · subst hseq
      refine ⟨by rw [chunker_nil]; rfl, ?_, ?_⟩
      · intro c hc
        rw [chunker_nil] at hc
        cases hc
      · intro i hi
        rw [chunker_nil] at hi
        simp at hi
    · have hlen : 0 < seq.length := List.length_pos.mpr hne
      have hdroplen : (seq.drop size).length ≤ n := by
        rw [List.length_drop]
        omega
      obtain ⟨ih1, ih2, ih3⟩ := chunker_spec_aux n (seq.drop size) size hdroplen hs
      rw [chunker_cons seq size hs hne]
      refine ⟨?_, ?_, ?_⟩
      · rw [List.flatten_cons, ih1, List.take_append_drop]
      · intro c hc
        rcases List.mem_cons.mp hc with hc | hc
        · subst hc
          constructor
          · intro htake
            rcases List.take_eq_nil_iff.mp htake with h | h
            · omega
            · exact hne h
          · rw [List.length_take]
            omega
        · exact ih2 c hc
      · intro i hi
        rcases i with _ | i
        · have hrest : chunker (seq.drop size) size ≠ [] := by
            intro hempty
            rw [List.length_cons, hempty] at hi
            simp at hi
          have hdropne : seq.drop size ≠ [] := by
            intro hd
            rw [hd, chunker_nil] at hrest
            exact hrest rfl
          have hsz : size < seq.length := by
            by_contra hcon
            exact hdropne (List.drop_eq_nil_iff.mpr (by omega))
          rw [List.getD_cons_zero, List.length_take]
          omega
        · rw [List.getD_cons_succ]
          apply ih3
          rw [List.length_cons] at hi
          omega

/-- C9: For every sequence `seq` and every positive integer `size`, the chunks
produced by `chunker(seq, size)`, concatenated in order, equal `seq`; every
chunk is non-empty with length at most `size`, and every chunk except
possibly the last has length exactly `size`. -/
theorem chunker_props {α : Type} (seq : List α) (size : Nat) (hs : 0 < size) :
    (chunker seq size).flatten = seq ∧
    (∀ c ∈ chunker seq size, c ≠ [] ∧ c.length ≤ size) ∧
    (∀ i, i + 1 < (chunker seq size).length →
      ((chunker seq size).getD i []).length = size) :=
  chunker_spec_aux seq.length seq size le_rfl hs

/-- Witness for C9: a five-element list in chunks of two. -/
theorem chunker_props_witness :
    (chunker [0, 1, 2, 3, 4] 2).flatten = [0, 1, 2, 3, 4] ∧
    (∀ c ∈ chunker [0, 1, 2, 3, 4] 2, c ≠ [] ∧ c.length ≤ 2) ∧
    (∀ i, i + 1 < (chunker [0, 1, 2, 3, 4] 2).length →
      ((chunker [0, 1, 2, 3, 4] 2).getD i []).length = 2) :=
  chunker_props [0, 1, 2, 3, 4] 2 (by decide)

/-- C3 counterexample: with the invalid email `"bademail"` (no `@`) in the
arguments and the (also invalid) interactive answer `"alsobad"`,
`check_config_arguments` raises nothing — it returns successfully with the
email silently replaced by the unvalidated answer.  This refutes the claim
that configuration setup rejects an invalid email by raising immediately and
aborting. -/
theorem check_config_arguments_accepts_invalid_email :
    emailMatches "bademail" = false ∧ emailMatches "alsobad" = false ∧
    check_config_arguments
      { pathExists := fun _ => true, writable := fun _ => true,
        dirname := fun _ => "" }
      (fun _ => "alsobad")
      { email := PyVal.str "bademail"
        genome_cache_folder := PyVal.str "/home/user/rip_genomes"
        batchsize := PyVal.int 5
        mismatch_probability := PyVal.float 1
        bowtie2_threads := PyVal.int 1
        bowtie2_scaling := PyVal.float 1
        use_conda := PyVal.str "True" } =
      Except.ok
        { email := PyVal.str "alsobad"
          genome_cache_folder := PyVal.str "/home/user/rip_genomes"
          batchsize := PyVal.int 5
          mismatch_probability := PyVal.float 1
          bowtie2_threads := PyVal.int 1
          bowtie2_scaling := PyVal.float 1
          use_conda := PyVal.str "True" } :=
  ⟨by decide, by decide, rfl⟩

/-- C3 (amended): Given an invalid email string (no `@` or no domain segment),
configuration setup does not raise immediately.  `check_config_arguments`
replaces a truthy invalid email with the next interactive input, without
re-validating it and without raising; the interactive prompt loop of
`interactive_config_input` accepts a valid first answer, re-prompts on invalid
answers, and raises the descriptive `RuntimeError` only after its third failed
round. -/
theorem config_email_validation_behaviour :
    (∀ (inputs : Nat → String) (s : String), s ≠ "" → emailMatches s = false →
      checkEmailField inputs (PyVal.str s) = PyVal.str (inputs 0)) ∧
    (∀ inputs : Nat → String, emailMatches (inputs 0) = true →
      interactive_config_email inputs = Except.ok (inputs 0)) ∧
    (∀ inputs : Nat → String, emailMatches (inputs 0) = false →
      emailMatches (inputs 2) = false → emailMatches (inputs 4) = false →
      interactive_config_email inputs =
        Except.error "Please try rip config again to input a valid email address.") := by
  refine ⟨?_, ?_, ?_⟩
  · intro inputs s hs hm
    simp [checkEmailField, pyTruthy, hs, hm]
  · intro inputs h0
    simp [interactive_config_email, interactiveEmailRounds, h0]
  · intro inputs h0 h2 h4
    simp [interactive_config_email, interactiveEmailRounds, h0, h2, h4]

/-- Witness for the amended C3: a concrete invalid email is replaced by the
next input, and three invalid interactive answers raise the error. -/
theorem config_email_validation_behaviour_witness :
    checkEmailField (fun _ => "still not checked") (PyVal.str "bademail") =
      PyVal.str "still not checked" ∧
    interactive_config_email (fun _ => "bademail") =
      Except.error "Please try rip config again to input a valid email address." :=
  ⟨config_email_validation_behaviour.1 (fun _ => "still not checked") "bademail"
      (by decide) (by decide),
    config_email_validation_behaviour.2.2 (fun _ => "bademail")
      (by decide) (by decide) (by decide)⟩

/-- C4 counterexample: the configuration passed to the workflow engine is not
the plain three-layer key-wise merge.  With empty defaults and user layers
and a flag layer defining only `mtDNA := True`, the merge has no
`workflow_dir` key and keeps `mtDNA` as the boolean `True`, yet the
configuration handed to `snakemake.snakemake` (after the unconditional
mutations of lines 703-704) maps `workflow_dir` to the injected path and
`mtDNA` to the string `"true"`, differing from the merge at both keys. -/
theorem database_engine_config_differs_from_merge :
    databaseResolvedConfig (fun _ => Option.none) (fun _ => Option.none)
        (fun k => if k = "mtDNA" then some (PyVal.bool true) else Option.none)
        "workflow_dir" = Option.none ∧
    databaseFinalMutations "/install/haystack"
        (databaseResolvedConfig (fun _ => Option.none) (fun _ => Option.none)
          (fun k => if k = "mtDNA" then some (PyVal.bool true) else Option.none))
        "workflow_dir" = some (PyVal.str "/install/haystack/workflow") ∧
    databaseResolvedConfig (fun _ => Option.none) (fun _ => Option.none)
        (fun k => if k = "mtDNA" then some (PyVal.bool true) else Option.none)
        "mtDNA" = some (PyVal.bool true) ∧
    databaseFinalMutations "/install/haystack"
        (databaseResolvedConfig (fun _ => Option.none) (fun _ => Option.none)
          (fun k => if k = "mtDNA" then some (PyVal.bool true) else Option.none))
        "mtDNA" = some (PyVal.str "true") ∧
    some (PyVal.str "true") ≠ some (PyVal.bool true) := by
  decide

/-- C4 (amended): For the configuration layers L1 (repository defaults), L2
(user overrides from the per-user YAML file) and L3 (per-invocation flags),
the intermediate `database_config` built at lines 540-551 equals L1 updated
key-wise by L2, then updated key-wise by L3 — for every key, the value from
the latest layer that defines (contains) it wins; the configuration
subsequently passed to the workflow engine is this merge further mutated (at
minimum, `workflow_dir` is unconditionally injected and `mtDNA` is
unconditionally stringified and lowercased by lines 703-704, and other keys
may be rewritten by the conditional steps in between), so it agrees with the
plain merge only away from the mutated keys. -/
theorem database_config_layering_and_final_mutations
    (repo user flags : String → Option PyVal) (k : String) (thisdir : String) :
    databaseResolvedConfig repo user flags =
      dictUpdate (dictUpdate repo user) flags ∧
    (∀ v, flags k = some v → databaseResolvedConfig repo user flags k = some v) ∧
    (flags k = Option.none → ∀ v, user k = some v →
      databaseResolvedConfig repo user flags k = some v) ∧
    (flags k = Option.none → user k = Option.none →
      databaseResolvedConfig repo user flags k = repo k) ∧
    databaseFinalMutations thisdir (databaseResolvedConfig repo user flags)
      "workflow_dir" = some (PyVal.str (pyPathJoin thisdir "workflow")) ∧
    (∀ v, databaseResolvedConfig repo user flags "mtDNA" = some v →
      databaseFinalMutations thisdir (databaseResolvedConfig repo user flags)
        "mtDNA" = some (PyVal.str (pyLower (pyStr v)))) ∧
    (∀ k2, k2 ≠ "workflow_dir" → k2 ≠ "mtDNA" →
      databaseFinalMutations thisdir (databaseResolvedConfig repo user flags) k2 =
        databaseResolvedConfig repo user flags k2) := by
  refine ⟨rfl, ?_, ?_, ?_, ?_, ?_, ?_⟩
  · intro v hv
    simp [databaseResolvedConfig, dictUpdate, hv]
  · intro hf v hu
    simp [databaseResolvedConfig, dictUpdate, hf, hu]
  · intro hf hu
    simp [databaseResolvedConfig, dictUpdate, hf, hu]
  · simp [databaseFinalMutations]
  · intro v hv
    simp [databaseFinalMutations, hv]
  · intro k2 h1 h2
    unfold databaseFinalMutations
    rw [if_neg h1, if_neg h2]

/-- Witness for the amended C4: with all three layers defining `"batchsize"`,
the flag layer wins, and on the merged configuration of the counterexample's
shape the final mutations stringify `mtDNA`. -/
theorem database_config_layering_and_final_mutations_witness :
    databaseResolvedConfig (fun _ => some (PyVal.int 1))
      (fun _ => some (PyVal.int 2)) (fun _ => some (PyVal.int 3)) "batchsize" =
      some (PyVal.int 3) ∧
    databaseFinalMutations "/install/haystack"
      (databaseResolvedConfig (fun _ => Option.none) (fun _ => Option.none)
        (fun _ => some (PyVal.bool false))) "mtDNA" =
      some (PyVal.str "false") :=
  ⟨(database_config_layering_and_final_mutations (fun _ => some (PyVal.int 1))
      (fun _ => some (PyVal.int 2)) (fun _ => some (PyVal.int 3)) "batchsize"
      "/install/haystack").2.1 (PyVal.int 3) rfl,
    (database_config_layering_and_final_mutations (fun _ => Option.none)
      (fun _ => Option.none) (fun _ => some (PyVal.bool false)) "batchsize"
      "/install/haystack").2.2.2.2.2.1 (PyVal.bool false) rfl⟩

/-- C7: For every database invocation whose resolved configuration sets both
the mtDNA flag and the refseq-rep flag, or both a query and a query file, the
`database` subcommand's check sequence raises a descriptive `RuntimeError`
(an `Except.error`), so the workflow engine invocation that follows the
checks in the source is never reached. -/
theorem database_conflicting_flags_raise (cfg : DbConfig)
    (h : (pyTruthy cfg.mtDNA = true ∧ pyTruthy cfg.refseq_rep = true) ∨
         (pyTruthy cfg.query = true ∧ pyTruthy cfg.query_file = true)) :
    ∃ msg, databaseChecks cfg = Except.error msg := by
  have hrf : ∀ v : PyVal, pyTruthy v = true → v ≠ PyVal.bool false := by
    intro v hv he
    subst he
    simp [pyTruthy] at hv
  have hnn : ∀ v : PyVal, pyTruthy v = true → v ≠ PyVal.none := by
    intro v hv he
    subst he
    simp [pyTruthy] at hv
  unfold databaseChecks
  rcases h with ⟨h1, h2⟩ | ⟨h1, h2⟩
  · rw [if_neg, if_pos]
    · exact ⟨_, rfl⟩
    · rw [h1, h2]
      rfl
    · rintro ⟨ha, -⟩
      exact hrf _ h2 ha
  · rw [if_neg]
    · by_cases hm : (pyTruthy cfg.mtDNA && pyTruthy cfg.refseq_rep) = true
      · rw [if_pos hm]
        exact ⟨_, rfl⟩
      · rw [if_neg hm, if_pos (by rw [h1, h2]; rfl)]
        exact ⟨_, rfl⟩
    · rintro ⟨-, hq, -⟩
      exact hnn _ h1 hq

/-- Witness for C7: both `--mtDNA` and `--refseq-rep` set. -/
theorem database_conflicting_flags_raise_witness :
    ∃ msg, databaseChecks
      { refseq_rep := PyVal.bool true, query := PyVal.none,
        query_file := PyVal.none, accessions := PyVal.str "",
        sequences := PyVal.str "", mtDNA := PyVal.bool true } =
      Except.error msg :=
  database_conflicting_flags_raise
    { refseq_rep := PyVal.bool true, query := PyVal.none,
      query_file := PyVal.none, accessions := PyVal.str "",
      sequences := PyVal.str "", mtDNA := PyVal.bool true }
    (Or.inl ⟨rfl, rfl⟩)

/-- C10: A numeric configuration field equal to zero (`batchsize`,
`mismatch_probability`, `bowtie2_threads` or `bowtie2_scaling`) passes its
block of `check_config_arguments` without any error: the type and positivity
checks are guarded by the field's truthiness, and `0`/`0.0` are falsy, so a
zero value is accepted silently — including by the whole function on a
configuration whose four numeric fields are all zero. -/
theorem zero_numeric_config_values_skip_checks :
    checkBatchsizeField (PyVal.int 0) = Except.ok () ∧
    checkMismatchProbabilityField (PyVal.float 0) = Except.ok () ∧
    checkBowtie2ThreadsField (PyVal.int 0) = Except.ok () ∧
    checkBowtie2ScalingField (PyVal.float 0) = Except.ok () ∧
    check_config_arguments
      { pathExists := fun _ => true, writable := fun _ => true,
        dirname := fun _ => "" }
      (fun _ => "")
      { email := PyVal.none
        genome_cache_folder := PyVal.none
        batchsize := PyVal.int 0
        mismatch_probability := PyVal.float 0
        bowtie2_threads := PyVal.int 0
        bowtie2_scaling := PyVal.float 0
        use_conda := PyVal.none } =
      Except.ok
        { email := PyVal.none
          genome_cache_folder := PyVal.none
          batchsize := PyVal.int 0
          mismatch_probability := PyVal.float 0
          bowtie2_threads := PyVal.int 0
          bowtie2_scaling := PyVal.float 0
          use_conda := PyVal.none } :=
  ⟨rfl, rfl, rfl, rfl, rfl⟩

end Haystac
